import Mathlib

/-!
Verification development for the MindMirror repository (browser-extension
demo scripts: DOM element scanners, an emotion-smoothing service, and a
Spotify playlist lookup).

The JavaScript sources are shallowly embedded:
* DOM documents are flat lists of element snapshots with parent pointers
  (list order = document pre-order); `document.body` is the element at
  index 0 by convention.
* CSS selector strings are modelled exactly as the source builds them
  (string concatenation, with `CSS.escape` implemented per its W3C
  algorithm); `querySelectorAll` is modelled by a small parser for the
  selector fragment these scanners emit plus a matching function.  A parse
  failure (`none`) models the `SyntaxError` thrown by `querySelectorAll`.
* JavaScript numbers are idealised: pixel geometry as `Int`
  (`Math.round` on already-integral values is the identity), emotion
  scores as `Rat`.  The 32-bit `<<`/`&` arithmetic of `simpleHash` is
  modelled exactly with `Int` and explicit reduction mod 2^32.
* Exceptions raised while reading a single element (the situation the
  scanners' per-element `try`/`catch` guards against) are modelled by a
  `throws` flag on the element snapshot; a function that would propagate
  the exception returns `none`.
* `Date.now()` is an explicit `now : Nat` argument; scanner instance
  state (`this.cache` …) is passed explicitly.
-/

namespace CSSModel

/-- Lowercase hex digits, as produced by the CSS escape serialisation. -/
def hexDigitChar (n : Nat) : Char :=
  if n < 10 then Char.ofNat (48 + n) else Char.ofNat (87 + n)

/-- Hex representation (lowercase, no leading zeros) of `n`, with fuel. -/
def natToHexAux : Nat → Nat → List Char → List Char
  | 0, _, acc => acc
  | _ + 1, 0, acc => acc
  | fuel + 1, n, acc => natToHexAux fuel (n / 16) (hexDigitChar (n % 16) :: acc)

def natToHex (n : Nat) : List Char :=
  if n = 0 then ['0'] else natToHexAux (n + 1) n []

/-- One step of the `CSS.escape` algorithm (W3C CSSOM §serialize an
identifier, as implemented by `CSS.escape`): `i` is the character's index,
`first` the first character of the whole string, `len` its length. -/
def cssEscapeChar (c : Char) (i : Nat) (first : Char) (len : Nat) : List Char :=
  if c.toNat = 0 then [Char.ofNat 0xFFFD]
  else if c.toNat ≤ 0x1F || c.toNat = 0x7F then
    '\\' :: natToHex c.toNat ++ [' ']
  else if i = 0 && c.isDigit then '\\' :: natToHex c.toNat ++ [' ']
  else if i = 1 && c.isDigit && first = '-' then '\\' :: natToHex c.toNat ++ [' ']
  else if i = 0 && c = '-' && len = 1 then ['\\', '-']
  else if c.toNat ≥ 0x80 || c = '-' || c = '_' || c.isDigit || c.isAlpha then [c]
  else ['\\', c]

/-- `CSS.escape(s)`. -/
def cssEscape (s : String) : String :=
  let cs := s.data
  let first := cs.headD ' '
  ⟨(cs.enum.map fun p => cssEscapeChar p.2 p.1 first cs.length).flatten⟩

/-! String helpers by structural recursion on the character list; the
library versions (`String.split`, `trim`, `take`, `toUpper`, `toLower`,
`startsWith`) are compiled by well-founded recursion over byte positions
and do not reduce definitionally, which the concrete scenario proofs
need. -/

def strSplitAux (p : Char → Bool) : List Char → List Char → List String
  | [], cur => [⟨cur.reverse⟩]
  | c :: cs, cur =>
    if p c then ⟨cur.reverse⟩ :: strSplitAux p cs []
    else strSplitAux p cs (c :: cur)

/-- `s.split(p)` (JavaScript's `split(/\s+/)` composed with the scanners'
`filter(c => c)` gives the same tokens). -/
def strSplit (s : String) (p : Char → Bool) : List String := strSplitAux p s.data []

/-- `s.trim()`. -/
def strTrim (s : String) : String :=
  ⟨((s.data.dropWhile fun c => c.isWhitespace).reverse.dropWhile fun c =>
      c.isWhitespace).reverse⟩

/-- `s.substring(0, n)`. -/
def strTake (s : String) (n : Nat) : String := ⟨s.data.take n⟩

def strToUpper (s : String) : String := ⟨s.data.map Char.toUpper⟩

def strToLower (s : String) : String := ⟨s.data.map Char.toLower⟩

def strStartsWith (s pre : String) : Bool := pre.data.isPrefixOf s.data

/-- Simple selector atoms: the fragment of CSS the scanners emit or pass to
`querySelectorAll`.  A compound selector is a list of atoms (conjunction);
`notSel` holds the compound inside `:not(...)`. -/
inductive SelAtom where
  | tagSel (t : String)
  | idSel (v : String)
  | classSel (v : String)
  | attrPresent (a : String)
  | attrEq (a v : String)
  | attrContains (a v : String)
  | nthOfType (n : Nat)
  | notSel (inner : List SelAtom)

/-- A selector list: comma-separated compound selectors. -/
def Selector := List (List SelAtom)

/-- Bounding box, in viewport coordinates (`getBoundingClientRect`). -/
structure Rect where
  left : Int
  top : Int
  width : Int
  height : Int
deriving Repr, DecidableEq

def Rect.bottom (r : Rect) : Int := r.top + r.height

def Rect.right (r : Rect) : Int := r.left + r.width

/-- Snapshot of one DOM element.  `parent` is the index of the parent
element in the document's list (`none` for the root); `""` models an
absent `id`/`className` exactly as the DOM does; `Option String`
attributes model `getAttribute` returning `null`.  `ownText` is the text
directly inside the element (its own text nodes); `isIntersecting` is the
result the host's `IntersectionObserver` reports for the element;
`throws` models an element whose property access raises (the case the
scanners' per-element `try`/`catch` protects against). -/
structure Element where
  tag : String
  parent : Option Nat := none
  id : String := ""
  className : String := ""
  dataTestid : Option String := none
  ariaLabel : Option String := none
  nameAttr : Option String := none
  roleAttr : Option String := none
  onclickAttr : Option String := none
  typeAttr : Option String := none
  hrefAttr : Option String := none
  titleAttr : Option String := none
  ariaLabelledby : Option String := none
  tabindexAttr : Option String := none
  placeholder : String := ""
  value : String := ""
  ownText : String := ""
  rect : Rect := ⟨0, 0, 0, 0⟩
  isIntersecting : Bool := true
  throws : Bool := false
deriving Repr, DecidableEq

instance : Inhabited Element := ⟨{ tag := "" }⟩

/-- A live document: elements in pre-order (the element at index 0 is
`document.body`), plus the window's viewport size. -/
structure Doc where
  elems : List Element
  innerWidth : Int := 1024
  innerHeight : Int := 768
deriving Repr, DecidableEq

def elemAt (doc : Doc) (i : Nat) : Element := doc.elems.getD i default

/-- `element.tagName` (DOM reports upper case; `tag` stores lower case). -/
def tagNameUpper (e : Element) : String := strToUpper e.tag

/-- `getAttribute(a)` for the attributes these scanners consult. -/
def getAttr (e : Element) (a : String) : Option String :=
  if a = "role" then e.roleAttr
  else if a = "onclick" then e.onclickAttr
  else if a = "type" then e.typeAttr
  else if a = "href" then e.hrefAttr
  else if a = "data-testid" then e.dataTestid
  else if a = "aria-label" then e.ariaLabel
  else if a = "aria-labelledby" then e.ariaLabelledby
  else if a = "name" then e.nameAttr
  else if a = "title" then e.titleAttr
  else if a = "tabindex" then e.tabindexAttr
  else if a = "class" then (if e.className = "" then none else some e.className)
  else if a = "id" then (if e.id = "" then none else some e.id)
  else if a = "placeholder" then (if e.placeholder = "" then none else some e.placeholder)
  else none

/-- The element's class list (`className` split on whitespace). -/
def classList (e : Element) : List String :=
  (strSplit e.className fun c => c.isWhitespace).filter (· ≠ "")

/-- Indices of the children of the element at `p` (`none`: roots), in
document order — `parent.children`. -/
def childrenOf (doc : Doc) (p : Option Nat) : List Nat :=
  (List.range doc.elems.length).filter fun j => (elemAt doc j).parent = p

/-- Substring test on character lists (JS `String.prototype.includes`). -/
def listContainsSub (hay sub : List Char) : Bool :=
  if sub.isPrefixOf hay then true
  else match hay with
    | [] => false
    | _ :: t => listContainsSub t sub

def strContainsSub (hay sub : String) : Bool := listContainsSub hay.data sub.data

/-- 1-based position of element `i` among its same-tag siblings, the
quantity `:nth-of-type` tests (and the one the fallback selector
generators compute from `parent.children`). -/
def sameTagPosition (doc : Doc) (i : Nat) : Nat :=
  let e := elemAt doc i
  let sibs := (childrenOf doc e.parent).filter fun j => (elemAt doc j).tag = e.tag
  sibs.indexOf i + 1

mutual

/-- Does element `i` of `doc` match a selector atom? -/
def matchAtom (doc : Doc) (i : Nat) : SelAtom → Bool
  | .tagSel t => (elemAt doc i).tag = t
  | .idSel v => (elemAt doc i).id = v
  | .classSel v => (classList (elemAt doc i)).contains v
  | .attrPresent a => (getAttr (elemAt doc i) a).isSome
  | .attrEq a v => getAttr (elemAt doc i) a = some v
  | .attrContains a v =>
    match getAttr (elemAt doc i) a with
    | some s => strContainsSub s v
    | none => false
  | .nthOfType n => sameTagPosition doc i = n
  | .notSel inner => ! matchAtoms doc i inner

/-- Conjunction of the atoms of a compound selector. -/
def matchAtoms (doc : Doc) (i : Nat) : List SelAtom → Bool
  | [] => true
  | a :: rest => matchAtom doc i a && matchAtoms doc i rest

end

def isHexDigitC (c : Char) : Bool :=
  c.isDigit || ('a' ≤ c && c ≤ 'f') || ('A' ≤ c && c ≤ 'F')

def hexVal (c : Char) : Nat :=
  if c.isDigit then c.toNat - 48
  else if 'a' ≤ c && c ≤ 'f' then c.toNat - 87
  else c.toNat - 55

def isIdentChar (c : Char) : Bool :=
  c.isAlpha || c.isDigit || c = '-' || c = '_' || c.toNat ≥ 0x80

/-- Take up to `n` further hex digits. -/
def takeHexAux : Nat → List Char → List Char × List Char
  | 0, cs => ([], cs)
  | _ + 1, [] => ([], [])
  | n + 1, c :: cs =>
    if isHexDigitC c then
      let (d, r) := takeHexAux n cs
      (c :: d, r)
    else ([], c :: cs)

/-- CSS escape sequence after a backslash: either a hex escape of up to six
digits followed by an optional space, or a literal character.  A backslash
before a newline (or at the end of input) is a syntax error. -/
def parseEscape : List Char → Option (Char × List Char)
  | [] => none
  | c :: cs =>
    if isHexDigitC c then
      let (ds, rest) := takeHexAux 5 cs
      let n := (c :: ds).foldl (fun a d => a * 16 + hexVal d) 0
      let rest' := match rest with
        | ' ' :: r => r
        | r => r
      if n = 0 || n > 0x10FFFF || (0xD800 ≤ n && n ≤ 0xDFFF) then
        some (Char.ofNat 0xFFFD, rest')
      else some (Char.ofNat n, rest')
    else if c = '\n' then none
    else some (c, cs)

/-- Maximal run of identifier characters and escapes (possibly empty);
`none` on a malformed escape.  (Permissive on the leading character — every
identifier this development feeds back to the parser was serialised with
`cssEscape`, which escapes leading digits and hyphens.) -/
def parseIdentAux : Nat → List Char → Option (List Char × List Char)
  | 0, cs => some ([], cs)
  | _ + 1, [] => some ([], [])
  | fuel + 1, c :: cs =>
    if c = '\\' then
      match parseEscape cs with
      | none => none
      | some (ch, rest) =>
        match parseIdentAux fuel rest with
        | none => none
        | some (ids, r) => some (ch :: ids, r)
    else if isIdentChar c then
      match parseIdentAux fuel cs with
      | none => none
      | some (ids, r) => some (c :: ids, r)
    else some ([], c :: cs)

/-- Body of a double-quoted CSS string, up to and including the closing
quote; unterminated strings and raw newlines are syntax errors. -/
def parseQuotedAux : Nat → List Char → Option (List Char × List Char)
  | 0, _ => none
  | _ + 1, [] => none
  | fuel + 1, c :: cs =>
    if c = '"' then some ([], cs)
    else if c = '\\' then
      match parseEscape cs with
      | none => none
      | some (ch, rest) =>
        match parseQuotedAux fuel rest with
        | none => none
        | some (s, r) => some (ch :: s, r)
    else if c = '\n' then none
    else
      match parseQuotedAux fuel cs with
      | none => none
      | some (s, r) => some (c :: s, r)

/-- Decimal literal (at least one digit). -/
def parseNatAux : Nat → List Char → Nat → Option (Nat × List Char)
  | 0, cs, acc => some (acc, cs)
  | _ + 1, [], acc => some (acc, [])
  | fuel + 1, c :: cs, acc =>
    if c.isDigit then parseNatAux fuel cs (acc * 10 + (c.toNat - 48))
    else some (acc, c :: cs)

/-- Does the input begin another simple-selector atom? -/
def startsAtom : List Char → Bool
  | [] => false
  | c :: _ => c = '#' || c = '.' || c = '[' || c = ':' || c = '\\' || isIdentChar c

mutual

/-- One simple-selector atom of the fragment the scanners use. -/
def parseAtom : Nat → List Char → Option (SelAtom × List Char)
  | 0, _ => none
  | _ + 1, [] => none
  | fuel + 1, c :: cs =>
    if c = '#' then
      match parseIdentAux fuel cs with
      | none => none
      | some (ids, r) => if ids.isEmpty then none else some (.idSel ⟨ids⟩, r)
    else if c = '.' then
      match parseIdentAux fuel cs with
      | none => none
      | some (ids, r) => if ids.isEmpty then none else some (.classSel ⟨ids⟩, r)
    else if c = '[' then
      match parseIdentAux fuel cs with
      | none => none
      | some (a, r) =>
        if a.isEmpty then none
        else
          match r with
          | ']' :: r2 => some (.attrPresent ⟨a⟩, r2)
          | '=' :: '"' :: r2 =>
            match parseQuotedAux fuel r2 with
            | none => none
            | some (v, r3) =>
              match r3 with
              | ']' :: r4 => some (.attrEq ⟨a⟩ ⟨v⟩, r4)
              | _ => none
          | '*' :: '=' :: '"' :: r2 =>
            match parseQuotedAux fuel r2 with
            | none => none
            | some (v, r3) =>
              match r3 with
              | ']' :: r4 => some (.attrContains ⟨a⟩ ⟨v⟩, r4)
              | _ => none
          | _ => none
    else if c = ':' then
      match parseIdentAux fuel cs with
      | none => none
      | some (nm, r) =>
        if (⟨nm⟩ : String) = "not" then
          match r with
          | '(' :: r2 =>
            match parseCompoundAux fuel r2 with
            | none => none
            | some (inner, r3) =>
              match r3 with
              | ')' :: r4 => some (.notSel inner, r4)
              | _ => none
          | _ => none
        else if (⟨nm⟩ : String) = "nth-of-type" then
          match r with
          | '(' :: d :: r2 =>
            if d.isDigit then
              match parseNatAux fuel r2 (d.toNat - 48) with
              | none => none
              | some (n, r3) =>
                match r3 with
                | ')' :: r4 => some (.nthOfType n, r4)
                | _ => none
            else none
          | _ => none
        else none
    else if isIdentChar c || c = '\\' then
      match parseIdentAux fuel (c :: cs) with
      | none => none
      | some (ids, r) => if ids.isEmpty then none else some (.tagSel ⟨ids⟩, r)
    else none

/-- A compound selector: one or more adjacent atoms. -/
def parseCompoundAux : Nat → List Char → Option (List SelAtom × List Char)
  | 0, _ => none
  | fuel + 1, cs =>
    match parseAtom fuel cs with
    | none => none
    | some (a, r) =>
      if startsAtom r then
        match parseCompoundAux fuel r with
        | none => none
        | some (as, r2) => some (a :: as, r2)
      else some ([a], r)

end

def skipSpaces : List Char → List Char
  | ' ' :: r => skipSpaces r
  | cs => cs

/-- A selector list: compound selectors separated by commas. -/
def parseSelListAux : Nat → List Char → Option (List (List SelAtom))
  | 0, _ => none
  | fuel + 1, cs =>
    match parseCompoundAux fuel (skipSpaces cs) with
    | none => none
    | some (comp, r) =>
      match skipSpaces r with
      | [] => some [comp]
      | ',' :: r2 =>
        match parseSelListAux fuel r2 with
        | none => none
        | some rest => some (comp :: rest)
      | _ => none

/-- Parse a selector string; `none` models `querySelectorAll` raising a
`SyntaxError` when handed the string. -/
def parseSelector (s : String) : Option Selector :=
  parseSelListAux (3 * s.length + 8) s.data

/-- Does the selector list (any alternative) match element `i`? -/
def matchSelector (doc : Doc) (i : Nat) (sel : Selector) : Bool :=
  sel.any fun comp => matchAtoms doc i comp

/-- `document.querySelectorAll` on an already-parsed selector: matching
elements in document order, each once. -/
def queryAll (doc : Doc) (sel : Selector) : List Nat :=
  (List.range doc.elems.length).filter fun i => matchSelector doc i sel

/-- `document.querySelectorAll(s)`: `none` when the string throws. -/
def queryAllString (doc : Doc) (s : String) : Option (List Nat) :=
  (parseSelector s).map fun sel => queryAll doc sel

/-- JavaScript `x || y` on strings (empty string is falsy). -/
def jsOrStr (a b : String) : String := if a = "" then b else a

/-- `getAttribute` result seen through a JS truthiness test:
`null` and `""` both fail `if (x)`. -/
def optStr (o : Option String) : Option String :=
  match o with
  | some "" => none
  | x => x

/-- `element.textContent`: the text of the whole subtree.  The fuel (the
document size bounds the tree depth) only guards malformed parent
pointers. -/
def textContentFuel (doc : Doc) : Nat → Nat → String
  | 0, _ => ""
  | fuel + 1, i =>
    (elemAt doc i).ownText ++
      ((childrenOf doc (some i)).map fun j => textContentFuel doc fuel j).foldl
        (· ++ ·) ""

def textContent (doc : Doc) (i : Nat) : String :=
  textContentFuel doc doc.elems.length i

end CSSModel

namespace Simple

open CSSModel

/-! ## SimpleDOMScanner (`spotify-config.js`, second document) -/

def CACHE_LIFETIME : Nat := 3000

/-- `scan`'s options bag.  `maxElements = 0` models both an absent field
and an explicit `0` — JavaScript's `options.maxElements || 100` cannot
tell them apart.  `useCache = none` models an absent field;
`options.useCache !== false` is true for it. -/
structure ScanOptions where
  maxElements : Nat := 0
  useCache : Option Bool := none
deriving Repr, DecidableEq

structure Position where
  x : Int
  y : Int
  width : Int
  height : Int
deriving Repr, DecidableEq

/-- The `attributes` sub-object of a scanned element. -/
structure AttributesData where
  id : Option String
  className : Option String
  dataTestid : Option String
  ariaLabel : Option String
  name : Option String
  type : Option String
deriving Repr, DecidableEq

/-- One record of the scan result.  `domRef` models the retained
`__domRef` element reference as the element's document index. -/
structure ScannedElement where
  id : String
  selector : String
  text : String
  type : String
  role : Option String
  visible : Bool
  position : Position
  attributes : AttributesData
  domRef : Nat
deriving Repr, DecidableEq

/-- The visibility test of `extractElementData`: positive box, vertical
overlap with the window — the horizontal coordinates are not consulted. -/
def isVisibleCheck (rect : Rect) (innerHeight : Int) : Bool :=
  decide (0 < rect.width) && decide (0 < rect.height) &&
    decide (rect.top < innerHeight) && decide (0 < rect.bottom)

/-- `getImpliedRole(tagName)`. -/
def getImpliedRole (tagName : String) : Option String :=
  if tagName = "button" then some "button"
  else if tagName = "a" then some "link"
  else if tagName = "input" then some "textbox"
  else if tagName = "select" then some "listbox"
  else if tagName = "textarea" then some "textbox"
  else none

/-- `generateId(element, index)`. -/
def generateId (e : Element) (index : Nat) : String :=
  if e.id ≠ "" then "id-" ++ e.id
  else
    match optStr e.dataTestid with
    | some t => "testid-" ++ t
    | none =>
      match optStr e.nameAttr with
      | some n => "name-" ++ n
      | none => "elem-" ++ toString index

/-- The guard of `generateSelector`'s id strategy: a non-empty id whose
escaped selector resolves to exactly one node (a throwing
`querySelectorAll` counts as failure, per the `try`/`catch`). -/
def idStepOk (doc : Doc) (i : Nat) : Bool :=
  let e := elemAt doc i
  if e.id ≠ "" then
    match queryAllString doc ("#" ++ cssEscape e.id) with
    | some l => l.length == 1
    | none => false
  else false

/-- The guard of `generateSelector`'s unique tag+class strategy. -/
def classStepOk (doc : Doc) (i : Nat) : Bool :=
  let e := elemAt doc i
  let classes := (strSplit e.className fun c => c.isWhitespace).filter (· ≠ "")
  e.className != "" &&
    match classes with
    | c :: _ =>
      match queryAllString doc (e.tag ++ "." ++ cssEscape c) with
      | some l => l.length == 1
      | none => false
    | [] => false

/-- `generateSelector(element)`: id (escaped, checked unique), then
`data-testid`, `aria-label` (length-bounded), `name`, a unique
tag+class, an `:nth-of-type` fallback, and finally the bare tag — every
embedded value passed through `CSS.escape`. -/
def generateSelector (doc : Doc) (i : Nat) : String :=
  let e := elemAt doc i
  if idStepOk doc i then "#" ++ cssEscape e.id
  else
    match optStr e.dataTestid with
    | some t => "[data-testid=\"" ++ cssEscape t ++ "\"]"
    | none =>
      match (optStr e.ariaLabel).filter fun a => decide (a.length < 50) with
      | some a => e.tag ++ "[aria-label=\"" ++ cssEscape a ++ "\"]"
      | none =>
        match optStr e.nameAttr with
        | some n => e.tag ++ "[name=\"" ++ cssEscape n ++ "\"]"
        | none =>
          let classes := (strSplit e.className fun c => c.isWhitespace).filter (· ≠ "")
          if classStepOk doc i then e.tag ++ "." ++ cssEscape (classes.headD "")
          else
            match e.parent with
            | some _ => e.tag ++ ":nth-of-type(" ++ toString (sameTagPosition doc i) ++ ")"
            | none => e.tag

/-- `extractElementData(element, index)`: `none` models both the caught
per-element exception and the early `null` for invisible elements. -/
def extractElementData (doc : Doc) (i : Nat) (index : Nat) : Option ScannedElement :=
  let e := elemAt doc i
  if e.throws then none
  else if ! isVisibleCheck e.rect doc.innerHeight then none
  else
    let text :=
      if tagNameUpper e = "INPUT" || tagNameUpper e = "TEXTAREA" then
        jsOrStr e.placeholder e.value
      else strTake (strTrim (textContent doc i)) 100
    some
      { id := generateId e index
        selector := generateSelector doc i
        text := text
        type := e.tag
        role := match optStr e.roleAttr with
          | some r => some r
          | none => getImpliedRole e.tag
        visible := true
        position := ⟨e.rect.left, e.rect.top, e.rect.width, e.rect.height⟩
        attributes :=
          { id := if e.id = "" then none else some e.id
            className := if e.className = "" then none else some e.className
            dataTestid := e.dataTestid
            ariaLabel := e.ariaLabel
            name := e.nameAttr
            type := e.typeAttr }
        domRef := i }

/-- The scan's nine collection strategies, verbatim. -/
def strategySelectors : List String :=
  ["button", "a[href]", "input:not([type=\"hidden\"])", "select", "textarea",
   "[role=\"button\"]", "[role=\"link\"]", "[role=\"tab\"]", "[onclick]"]

/-- The body of the collection loop: skip an element already seen, stop
adding once `maxElements` is reached (`!seenElements.has(el) &&
elements.length < maxElements`). -/
def addCapped (maxE : Nat) (acc : List Nat) (i : Nat) : List Nat :=
  if acc.contains i || decide (maxE ≤ acc.length) then acc else acc ++ [i]

/-- The collection loop of `scan`: run every strategy, skip elements
already seen, stop adding at `maxElements`; a strategy whose selector
throws is skipped. -/
def collectElements (doc : Doc) (maxE : Nat) : List Nat :=
  strategySelectors.foldl
    (fun acc s =>
      match queryAllString doc s with
      | none => acc
      | some found => found.foldl (addCapped maxE) acc)
    []

/-- The non-cached part of `scan`: collect, extract, keep visible. -/
def computeScanResults (doc : Doc) (maxE : Nat) : List ScannedElement :=
  (((collectElements doc maxE).enum.map fun p =>
      extractElementData doc p.2 p.1).reduceOption).filter
    fun d => d.visible

/-- Scanner instance state: `this.cache` / `this.cacheTime`. -/
structure ScannerState where
  cache : Option (List ScannedElement) := none
  cacheTime : Nat := 0
deriving Repr, DecidableEq

def initState : ScannerState := {}

/-- `isCacheValid()` — note a cached empty array is truthy. -/
def isCacheValid (st : ScannerState) (now : Nat) : Bool :=
  st.cache.isSome && decide (now - st.cacheTime < CACHE_LIFETIME)

/-- `scan(options)` at time `now`, returning the results and the updated
instance state. -/
def scan (st : ScannerState) (doc : Doc) (opts : ScanOptions) (now : Nat) :
    List ScannedElement × ScannerState :=
  if opts.useCache ≠ some false ∧ isCacheValid st now then
    (st.cache.getD [], st)
  else
    let maxE := if opts.maxElements = 0 then 100 else opts.maxElements
    let results := computeScanResults doc maxE
    (results, ⟨some results, now⟩)

end Simple

namespace Efficient

open CSSModel

/-! ## EfficientDOMScanner (`src/unnamed/part_004`) -/

/-- `options` bag of `scanPageElements`; `0` / `none` model absent fields
(the source resolves them with `||` / `!==` defaults). -/
structure EffOptions where
  maxElements : Nat := 0
  useCache : Option Bool := none
  priority : Option String := none
  includeInvisible : Option Bool := none
deriving Repr, DecidableEq

/-- `isInteractiveElement(element)`. -/
def isInteractiveElement (e : Element) : Bool :=
  (["button", "a", "input", "select", "textarea", "details", "summary"].contains e.tag) ||
  e.onclickAttr.isSome ||
  (match e.roleAttr with
   | some r =>
     r ≠ "" &&
       ["button", "link", "tab", "menuitem", "option", "switch", "checkbox", "radio"].contains r
   | none => false)

/-- `isLikelyInteractive(element)`. -/
def isLikelyInteractive (e : Element) : Bool :=
  (["btn", "button", "link", "clickable", "action", "cta"].any fun p =>
    strContainsSub (strToLower e.className) p) ||
  e.tabindexAttr.isSome || e.ariaLabel.isSome

/-- Does `t` occur in the (proper-ancestor) parent chain of `c`?  Fuel
guards malformed parent pointers. -/
def ancestorChainContains (doc : Doc) : Nat → Option Nat → Nat → Bool
  | 0, _, _ => false
  | _ + 1, none, _ => false
  | fuel + 1, some p, t =>
    if p = t then true else ancestorChainContains doc fuel (elemAt doc p).parent t

/-- `hasInteractiveChild(element)`: scoped `querySelector` over the
element's descendants. -/
def hasInteractiveChild (doc : Doc) (i : Nat) : Bool :=
  ((queryAllString doc "button, a, input, select, textarea, [role=\"button\"]").getD []).any
    fun j => ancestorChainContains doc doc.elems.length (elemAt doc j).parent i

/-- `isNestedInteractive(element)`: walk ancestors strictly below
`document.body` (index 0). -/
def isNestedInteractiveAux (doc : Doc) : Nat → Option Nat → Bool
  | 0, _ => false
  | _ + 1, none => false
  | fuel + 1, some p =>
    if p = 0 then false
    else if isInteractiveElement (elemAt doc p) then true
    else isNestedInteractiveAux doc fuel (elemAt doc p).parent

def isNestedInteractive (doc : Doc) (i : Nat) : Bool :=
  isNestedInteractiveAux doc doc.elems.length (elemAt doc i).parent

/-- `extractTextEfficiently(element, maxLength, maxDepth)`.  The model
treats an element's direct text nodes as one leading chunk (`ownText`)
followed by its element children, matching the source's loop that
accumulates until the budget is spent and recurses only while
`maxDepth > 1`. -/
def extractTextEfficiently (doc : Doc) (i : Nat) (maxLength : Nat) : Nat → String
  | 0 => ""
  | maxDepth + 1 =>
    let e := elemAt doc i
    if tagNameUpper e = "INPUT" || tagNameUpper e = "TEXTAREA" then
      jsOrStr e.value e.placeholder
    else
      let t := (childrenOf doc (some i)).foldl
        (fun acc j =>
          if maxLength ≤ acc.length then acc
          else if 0 < maxDepth then
            acc ++ extractTextEfficiently doc j (maxLength - acc.length) maxDepth
          else acc)
        e.ownText
      strTake (strTrim t) maxLength

/-- `inferRole(element)` (the same table as the simple scanner's
`getImpliedRole`, duplicated in the source). -/
def inferRole (tagName : String) : Option String :=
  if tagName = "button" then some "button"
  else if tagName = "a" then some "link"
  else if tagName = "input" then some "textbox"
  else if tagName = "select" then some "listbox"
  else if tagName = "textarea" then some "textbox"
  else none

/-- `getAccessibleName(element)`. -/
def getAccessibleName (doc : Doc) (i : Nat) : String :=
  let e := elemAt doc i
  jsOrStr (e.ariaLabel.getD "")
    (jsOrStr (e.ariaLabelledby.getD "")
      (jsOrStr (e.titleAttr.getD "") (strTake (strTrim (textContent doc i)) 50)))

/-- `getRelevantAttributes(element)`: the present (truthy) attributes, in
the source's key order. -/
def getRelevantAttributes (e : Element) : List (String × String) :=
  ["data-testid", "aria-label", "title", "placeholder", "alt", "name", "type", "href"].filterMap
    fun a =>
      match optStr (getAttr e a) with
      | some v => some (a, v)
      | none => none

/-- `calculateConfidence(element)` (`Rat` idealises the JS float sums). -/
def calculateConfidence (doc : Doc) (i : Nat) : Rat :=
  let e := elemAt doc i
  let c : Rat := 1 / 2
  let c := if e.id ≠ "" then c + 3 / 10 else c
  let c := if e.dataTestid.isSome then c + 1 / 5 else c
  let c := if e.ariaLabel.isSome then c + 1 / 10 else c
  let c := if extractTextEfficiently doc i 100 3 ≠ "" then c + 1 / 10 else c
  min 1 c

/-- `calculatePriority(element, tagName, role)`. -/
def calculatePriority (doc : Doc) (i : Nat) (tagName : String) (role : Option String) : Int :=
  let e := elemAt doc i
  let score : Int :=
    if tagName = "button" then 10
    else if tagName = "a" then 9
    else if tagName = "input" then 9
    else if tagName = "select" then 8
    else if tagName = "textarea" then 8
    else if tagName = "form" then 7
    else 3
  let score := if role.isSome then score + 3 else score
  let score := if e.dataTestid.isSome then score + 5 else score
  let score := if e.ariaLabel.isSome then score + 3 else score
  let cl := classList e
  let score := if cl.contains "primary" || cl.contains "btn-primary" then score + 4 else score
  let score := if cl.contains "cta" || cl.contains "call-to-action" then score + 4 else score
  let score := if isNestedInteractive doc i then score - 2 else score
  max 0 score

/-- `getNthChildSelector(element)`: walk towards `document.body`,
qualifying repeated tags with `:nth-of-type`; an ancestor id (embedded
raw) ends the walk. -/
def getNthChildSelectorAux (doc : Doc) : Nat → Nat → List String → String
  | 0, _, path => String.intercalate " > " path
  | fuel + 1, cur, path =>
    if cur = 0 then String.intercalate " > " path
    else
      let e := elemAt doc cur
      if e.id ≠ "" then String.intercalate " > " (("#" ++ e.id) :: path)
      else
        let sel := e.tag ++
          (match e.parent with
           | some p =>
             let sibs := (childrenOf doc (some p)).filter fun j => (elemAt doc j).tag = e.tag
             if 1 < sibs.length then ":nth-of-type(" ++ toString (sibs.indexOf cur + 1) ++ ")"
             else ""
           | none => "")
        match e.parent with
        | some p => getNthChildSelectorAux doc fuel p (sel :: path)
        | none => String.intercalate " > " (sel :: path)

def getNthChildSelector (doc : Doc) (i : Nat) : String :=
  getNthChildSelectorAux doc (doc.elems.length + 1) i []

/-- The test `/^[a-zA-Z][\w-]*$/` guarding the id strategy. -/
def idSafeRegex (s : String) : Bool :=
  match s.data with
  | [] => false
  | c :: rest => c.isAlpha && rest.all fun d => d.isAlphanum || d = '_' || d = '-'

/-- `generateOptimalSelector(element)`.  In contrast with the simple
scanner, the `data-testid` and `aria-label` (and role/accessible-name)
values are embedded without `CSS.escape`.  `none` models the one path
that can raise inside this function (the class-uniqueness
`querySelectorAll` probe), which the caller's `try`/`catch` turns into a
dropped element. -/
def generateOptimalSelector (doc : Doc) (i : Nat) : Option String :=
  let e := elemAt doc i
  match optStr e.dataTestid with
  | some t => some ("[data-testid=\"" ++ t ++ "\"]")
  | none =>
    if e.id ≠ "" && idSafeRegex e.id then some ("#" ++ e.id)
    else
      match optStr e.ariaLabel with
      | some a => some (e.tag ++ "[aria-label=\"" ++ a ++ "\"]")
      | none =>
        match optStr e.roleAttr with
        | some r =>
          let nm := getAccessibleName doc i
          if nm ≠ "" then some ("[role=\"" ++ r ++ "\"][aria-label=\"" ++ nm ++ "\"]")
          else some ("[role=\"" ++ r ++ "\"]")
        | none =>
          let classes := (strSplit e.className fun c => c.isWhitespace).filter fun c =>
            c ≠ "" && !(strStartsWith c "ng-" || strStartsWith c "v-" || strStartsWith c "_")
          let step5 : Option (Option String) :=
            if e.className ≠ "" && !classes.isEmpty && decide (classes.length ≤ 3) then
              let classSelector := e.tag ++ "." ++ String.intercalate "." classes
              match queryAllString doc classSelector with
              | some l => if l.length = 1 then some (some classSelector) else none
              | none => some none
            else none
          match step5 with
          | some r => r
          | none =>
            -- Steps 6 and 7 both return the nth-child path (step 6 only
            -- computes the text for reference).
            if e.tag = "button" || e.tag = "a" then
              let text := extractTextEfficiently doc i 100 3
              if text ≠ "" && decide (text.length < 50) && decide (2 < text.length) then
                some (getNthChildSelector doc i)
              else some (getNthChildSelector doc i)
            else some (getNthChildSelector doc i)

/-- Signed 32-bit wrap-around, i.e. JavaScript `ToInt32`. -/
def toInt32 (n : Int) : Int := (n + 2147483648) % 4294967296 - 2147483648

/-- One step of `simpleHash`: `hash = (((hash << 5) - hash) + char) & hash`
(the `& hash` re-coerces to a signed 32-bit value). -/
def simpleHashStep (h : Int) (c : Char) : Int :=
  toInt32 (toInt32 (h * 32) - h + c.toNat)

def base36DigitChar (n : Nat) : Char :=
  if n < 10 then Char.ofNat (48 + n) else Char.ofNat (87 + n)

def natToBase36Aux : Nat → Nat → List Char → List Char
  | 0, _, acc => acc
  | _ + 1, 0, acc => acc
  | fuel + 1, n, acc => natToBase36Aux fuel (n / 36) (base36DigitChar (n % 36) :: acc)

/-- `Math.abs(hash).toString(36)`. -/
def natToBase36 (n : Nat) : String :=
  if n = 0 then "0" else ⟨natToBase36Aux (n + 1) n []⟩

/-- `simpleHash(str)`. -/
def simpleHash (s : String) : String :=
  natToBase36 (s.data.foldl simpleHashStep 0).natAbs

/-- `generateElementId(element)`. -/
def generateElementId (doc : Doc) (i : Nat) : String :=
  let e := elemAt doc i
  match optStr e.dataTestid with
  | some t => "testid-" ++ t
  | none =>
    if e.id ≠ "" then "id-" ++ e.id
    else "elem-" ++ simpleHash (tagNameUpper e ++ e.className ++ extractTextEfficiently doc i 20 3)

structure EffMetadata where
  hasChildren : Bool
  isNested : Bool
  confidence : Rat
deriving Repr, DecidableEq

/-- One record of the efficient scanner's result. -/
structure EffScannedElement where
  id : String
  selector : String
  text : String
  type : String
  role : Option String
  visible : Bool
  position : Option Simple.Position
  priority : Int
  attributes : List (String × String)
  metadata : EffMetadata
  elementRef : Nat
deriving Repr, DecidableEq

/-- `extractElementData(element, isVisible)`; `none` models the caught
exception (a throwing element, or selector generation raising). -/
def extractElementData (doc : Doc) (i : Nat) (isVisible : Bool) : Option EffScannedElement :=
  let e := elemAt doc i
  if e.throws then none
  else
    let tagName := e.tag
    let computedRole :=
      match optStr e.roleAttr with
      | some r => some r
      | none => inferRole tagName
    match generateOptimalSelector doc i with
    | none => none
    | some selector =>
      some
        { id := generateElementId doc i
          selector := selector
          text := extractTextEfficiently doc i 100 3
          type := tagName
          role := computedRole
          visible := isVisible
          position :=
            if isVisible then
              some ⟨e.rect.left, e.rect.top, e.rect.width, e.rect.height⟩
            else none
          priority := calculatePriority doc i tagName computedRole
          attributes := getRelevantAttributes e
          metadata :=
            { hasChildren := ! (childrenOf doc (some i)).isEmpty
              isNested := isNestedInteractive doc i
              confidence := calculateConfidence doc i }
          elementRef := i }

/-- `fastScan`: TreeWalker pre-order over `document.body`'s subtree
(everything but index 0), accepting interactive elements, capped. -/
def fastScan (doc : Doc) (maxE : Nat) : List Nat :=
  (((List.range doc.elems.length).filter fun i =>
      i ≠ 0 && isInteractiveElement (elemAt doc i)).take maxE)

def semanticSelectors : List String :=
  ["button", "a[href]", "input:not([type=\"hidden\"])", "select", "textarea",
   "[role=\"button\"]", "[role=\"link\"]", "[role=\"tab\"]", "[role=\"menuitem\"]",
   "[role=\"textbox\"]", "[onclick]"]

def commonPatterns : List String :=
  ["[class*=\"btn\"]", "[class*=\"button\"]", "[class*=\"link\"]", "[class*=\"nav\"]",
   "[class*=\"menu\"]", "[class*=\"tab\"]", "[class*=\"cta\"]"]

/-- Add unseen indices at the end (a JS `Set`'s insertion order). -/
def addUnseen (acc : List Nat) (l : List Nat) : List Nat :=
  l.foldl (fun a i => if a.contains i then a else a ++ [i]) acc

/-- `accurateScan(config)`. -/
def accurateScan (doc : Doc) (maxE : Nat) : List Nat :=
  let s1 := semanticSelectors.foldl
    (fun acc s =>
      match queryAllString doc s with
      | none => acc
      | some found => addUnseen acc found)
    []
  let s2 :=
    (((queryAllString doc "[aria-label], [aria-labelledby], [data-testid]").getD []).filter
        fun i => isInteractiveElement (elemAt doc i) || hasInteractiveChild doc i).foldl
      (fun a i => if a.contains i then a else a ++ [i]) s1
  let s3 := commonPatterns.foldl
    (fun acc s =>
      (((queryAllString doc s).getD []).filter fun i => isLikelyInteractive (elemAt doc i)).foldl
        (fun a i => if a.contains i then a else a ++ [i]) acc)
    s2
  s3.take maxE

/-- `balancedScan(config)`.  The `elements.length < maxElements * 0.7`
float comparison is modelled as `10·length < 7·maxElements` (exact for the
cap sizes exercised here; `0.7 * 100` is exactly `70` in doubles). -/
def balancedScan (doc : Doc) (maxE : Nat) : List Nat :=
  let primary :=
    (queryAllString doc
      "button, a[href], input:not([type=\"hidden\"]), select, textarea, [role=\"button\"], [role=\"link\"]").getD []
  let elements :=
    if 10 * primary.length < 7 * maxE then
      (((queryAllString doc
          "[onclick], [class*=\"btn\"], [class*=\"button\"], [role=\"tab\"], [role=\"menuitem\"]").getD []).foldl
        (fun acc i =>
          if acc.contains i || ! isLikelyInteractive (elemAt doc i) then acc
          else acc ++ [i])
        primary)
    else primary
  elements.take maxE

/-- The per-element loop of `processElements` before sorting: the
visibility map is the `IntersectionObserver` verdict recorded on each
element. -/
def processedUnsorted (doc : Doc) (includeInvisible : Bool) (els : List Nat) :
    List EffScannedElement :=
  els.foldl
    (fun acc i =>
      let isVisible := (elemAt doc i).isIntersecting
      if ! includeInvisible && ! isVisible then acc
      else
        match extractElementData doc i isVisible with
        | some d => acc ++ [d]
        | none => acc)
    []

/-- Stable insertion of `x` before the first element of strictly lower
priority. -/
def insertByPriority (x : EffScannedElement) : List EffScannedElement → List EffScannedElement
  | [] => [x]
  | y :: ys => if y.priority ≤ x.priority then x :: y :: ys else y :: insertByPriority x ys

/-- `prioritizeElements(elements)`: `elements.sort((a, b) => b.priority -
a.priority)`.  ECMAScript 2019 requires `Array.prototype.sort` to be
stable, and the stable descending order is unique, so the sort is
modelled by a stable insertion sort. -/
def prioritizeElements (l : List EffScannedElement) : List EffScannedElement :=
  l.foldr insertByPriority []

/-- `processElements(elements, config)` (the chunked loop preserves input
order; the yields between chunks do not affect the result). -/
def processElements (doc : Doc) (includeInvisible : Bool) (els : List Nat) :
    List EffScannedElement :=
  prioritizeElements (processedUnsorted doc includeInvisible els)

/-- Scanner instance state: the keyed cache, its timestamp and version. -/
structure EffState where
  cache : List (String × EffScannedElement) := []
  lastScanTimestamp : Nat := 0
  scanVersion : Nat := 0
deriving Repr, DecidableEq

def effInitState : EffState := {}

def effIsCacheValid (st : EffState) (now : Nat) : Bool :=
  decide (now - st.lastScanTimestamp < 5000) && decide (0 < st.cache.length)

/-- `Map.prototype.set`: replacing an existing key keeps its position. -/
def mapSet (m : List (String × EffScannedElement)) (k : String) (v : EffScannedElement) :
    List (String × EffScannedElement) :=
  if m.any fun p => p.1 = k then
    m.map fun p => if p.1 = k then (k, v) else p
  else m ++ [(k, v)]

/-- `updateCache(elements)` at time `now`. -/
def updateCache (st : EffState) (l : List EffScannedElement) (now : Nat) : EffState :=
  { cache := l.foldl (fun m d => mapSet m d.id d) []
    lastScanTimestamp := now
    scanVersion := st.scanVersion + 1 }

/-- `scanPageElements(options)` at time `now`: cache hit returns
`Array.from(this.cache.values())`; otherwise scan by strategy, process,
sort and cache. -/
def scanPageElements (st : EffState) (doc : Doc) (opts : EffOptions) (now : Nat) :
    List EffScannedElement × EffState :=
  let maxE := if opts.maxElements = 0 then 100 else opts.maxElements
  let priorityS := jsOrStr (opts.priority.getD "") "balanced"
  let includeInv := opts.includeInvisible = some true
  if opts.useCache ≠ some false ∧ effIsCacheValid st now then
    (st.cache.map (·.2), st)
  else
    let els :=
      if priorityS = "speed" then fastScan doc maxE
      else if priorityS = "accuracy" then accurateScan doc maxE
      else balancedScan doc maxE
    let processed := processElements doc includeInv els
    (processed, updateCache st processed now)

/-- The strategy switch of `scanPageElements`, as a standalone function:
the element list a cache-miss scan processes. -/
def chosenElements (doc : Doc) (opts : EffOptions) : List Nat :=
  let maxE := if opts.maxElements = 0 then 100 else opts.maxElements
  let priorityS := jsOrStr (opts.priority.getD "") "balanced"
  if priorityS = "speed" then fastScan doc maxE
  else if priorityS = "accuracy" then accurateScan doc maxE
  else balancedScan doc maxE

end Efficient

namespace Robust

open CSSModel

/-! ## RobustDOMScanner (`SCANNER_COMPARISON.md` listing) -/

/-- The `RobustDOMScanner.extractElementData` visibility test: like the
simple scanner's but with a ±500px vertical tolerance; horizontal
coordinates are again not consulted. -/
def robustIsVisible (rect : Rect) (innerHeight : Int) : Bool :=
  decide (0 < rect.width) && decide (0 < rect.height) &&
    decide (rect.top < innerHeight + 500) && decide (-500 < rect.bottom)

end Robust

namespace SpecVisibility

open CSSModel

/-! ## The spec's wording of visibility (for comparison with the code) -/

/-- Modelled from the spec's words (§4.1 step 5 / §8): positive width and
height, and the bounding box intersects the viewport `[0,w] × [0,h]`
extended on every side by the tolerance `margin`. -/
def specVisible (rect : Rect) (innerWidth innerHeight margin : Int) : Bool :=
  decide (0 < rect.width) && decide (0 < rect.height) &&
    decide (rect.left < innerWidth + margin) && decide (-margin < rect.right) &&
    decide (rect.top < innerHeight + margin) && decide (-margin < rect.bottom)

/-- Open intervals `(a, b)` and `(c, d)` overlap. -/
def intervalsIntersect (a b c d : Int) : Prop := max a c < min b d

end SpecVisibility

namespace MorphCast

/-! ## MorphCastService (`src/unnamed/part_002`) -/

/-- `this.currentEmotions` (all seven keys of the constructor; scores are
idealised as rationals). -/
structure Emotions where
  happy : Rat := 0
  sad : Rat := 0
  angry : Rat := 0
  surprised : Rat := 0
  neutral : Rat := 0
  fearful : Rat := 0
  disgusted : Rat := 0
deriving Repr, DecidableEq

/-- The five components `getSmoothedEmotions` returns. -/
structure SmoothedEmotions where
  happy : Rat
  sad : Rat
  angry : Rat
  surprised : Rat
  neutral : Rat
deriving Repr, DecidableEq

/-- `this.historySize = 10`. -/
def historySize : Nat := 10

/-- The emotion-smoothing state of the service. -/
structure ServiceState where
  currentEmotions : Emotions := {}
  emotionHistory : List Emotions := []
deriving Repr, DecidableEq

def initState : ServiceState := {}

/-- One `detectEmotions()` step.  The values placed in
`this.currentEmotions` by the SDK event or by `simulateEmotions` are the
(arbitrary) `cur` argument; the step then pushes a copy onto the history
and shifts the oldest reading off once the size exceeds `historySize`. -/
def detectEmotionsStep (st : ServiceState) (cur : Emotions) : ServiceState :=
  let hist := st.emotionHistory ++ [cur]
  { currentEmotions := cur
    emotionHistory := if historySize < hist.length then hist.tail else hist }

/-- The five smoothed components of a raw reading (what returning
`this.currentEmotions` exposes to the smoothing consumers). -/
def projectCurrent (e : Emotions) : SmoothedEmotions :=
  ⟨e.happy, e.sad, e.angry, e.surprised, e.neutral⟩

/-- The accumulation step of `getSmoothedEmotions`'s for-loop. -/
def addEmotions (acc : SmoothedEmotions) (e : Emotions) : SmoothedEmotions :=
  ⟨acc.happy + e.happy, acc.sad + e.sad, acc.angry + e.angry,
   acc.surprised + e.surprised, acc.neutral + e.neutral⟩

/-- `getSmoothedEmotions()`. -/
def getSmoothedEmotions (st : ServiceState) : SmoothedEmotions :=
  if st.emotionHistory.isEmpty then projectCurrent st.currentEmotions
  else
    let s := st.emotionHistory.foldl addEmotions ⟨0, 0, 0, 0, 0⟩
    let count : Rat := st.emotionHistory.length
    ⟨s.happy / count, s.sad / count, s.angry / count, s.surprised / count, s.neutral / count⟩

/-- The componentwise arithmetic mean of a list of readings — the
quantity the smoothed emotions are claimed to equal. -/
def meanOfHistory (hist : List Emotions) : SmoothedEmotions :=
  let n : Rat := hist.length
  ⟨(hist.map (·.happy)).sum / n, (hist.map (·.sad)).sum / n,
   (hist.map (·.angry)).sum / n, (hist.map (·.surprised)).sum / n,
   (hist.map (·.neutral)).sum / n⟩

end MorphCast

namespace Spotify

open CSSModel

/-! ## SpotifyService (`spotify-service.js`) -/

/-- The three music modes `getPlaylistForEmotion` is called with. -/
inductive MusicMode where
  | matchMode
  | boost
  | energy
deriving Repr, DecidableEq

/-- `this.moodPlaylists.match`. -/
def matchPlaylists : List (String × String) :=
  [("happy", "37i9dQZF1DXdPec7aLTmlC"), ("sad", "37i9dQZF1DX3YSRoSdA634"),
   ("angry", "37i9dQZF1DX1tyCD9QhIWF"), ("surprised", "37i9dQZF1DX4dyzvuaRJ0n"),
   ("neutral", "37i9dQZF1DX4sWSpwq3LiO"), ("excited", "37i9dQZF1DX0XUsuxWHRQd")]

/-- `this.moodPlaylists.boost`. -/
def boostPlaylists : List (String × String) :=
  [("happy", "37i9dQZF1DX0XUsuxWHRQd"), ("sad", "37i9dQZF1DX3rxVfibe1L0"),
   ("angry", "37i9dQZF1DWXti3N4Wp5xy"), ("surprised", "37i9dQZF1DX4sWSpwq3LiO"),
   ("neutral", "37i9dQZF1DX0XUsuxWHRQd"), ("excited", "37i9dQZF1DX3rxVfibe1L0")]

/-- `this.moodPlaylists.energy`. -/
def energyPlaylists : List (String × String) :=
  [("high", "37i9dQZF1DX76Wlfdnj7AP"), ("medium", "37i9dQZF1DX2sUQwD7tbmL"),
   ("low", "37i9dQZF1DWZd79rJ6a7lp")]

/-- The `energyMap` of `getPlaylistForEmotion`. -/
def energyMap : List (String × String) :=
  [("happy", "high"), ("excited", "high"), ("angry", "high"),
   ("surprised", "medium"), ("neutral", "low"), ("sad", "low")]

/-- JS object property lookup (`tbl[key]`, `undefined` as `none`). -/
def jsLookup : List (String × String) → String → Option String
  | [], _ => none
  | (k, v) :: rest, e => if k = e then some v else jsLookup rest e

/-- JS `x || y` where `x` is a lookup result (`undefined` and `""` are
falsy). -/
def jsOrOpt (a b : Option String) : Option String :=
  match a with
  | some s => if s = "" then b else some s
  | none => b

/-- `getPlaylistForEmotion(emotion, musicMode)` for the three modes the
table defines (`none` models `undefined`). -/
def getPlaylistForEmotion (emotion : String) (mode : MusicMode) : Option String :=
  match mode with
  | .energy =>
    let energyLevel := jsOrStr ((jsLookup energyMap emotion).getD "") "medium"
    jsLookup energyPlaylists energyLevel
  | .matchMode => jsOrOpt (jsLookup matchPlaylists emotion) (jsLookup matchPlaylists "neutral")
  | .boost => jsOrOpt (jsLookup boostPlaylists emotion) (jsLookup matchPlaylists "neutral")

end Spotify

namespace Simple

open CSSModel

/-- Shape of every string `generateSelector` can return: each embedded
id/attribute/class value appears only through `cssEscape`, and the two
fallbacks embed no value at all. -/
def embedsOnlyEscaped (doc : Doc) (i : Nat) (s : String) : Prop :=
  let e := elemAt doc i
  s = "#" ++ cssEscape e.id ∨
  (∃ t, optStr e.dataTestid = some t ∧ s = "[data-testid=\"" ++ cssEscape t ++ "\"]") ∨
  (∃ a, optStr e.ariaLabel = some a ∧ s = e.tag ++ "[aria-label=\"" ++ cssEscape a ++ "\"]") ∨
  (∃ n, optStr e.nameAttr = some n ∧ s = e.tag ++ "[name=\"" ++ cssEscape n ++ "\"]") ∨
  (∃ c, s = e.tag ++ "." ++ cssEscape c) ∨
  (∃ k : Nat, s = e.tag ++ ":nth-of-type(" ++ toString k ++ ")") ∨
  s = e.tag

end Simple

namespace Docs

open CSSModel

/-! ## Concrete documents used by the claim theorems -/

/-- The spec's `login:btn` scenario: one button whose id contains a
colon. -/
def docLogin : Doc :=
  { elems := [{ tag := "body" },
              { tag := "button", parent := some 0, id := "login:btn",
                rect := ⟨10, 10, 100, 30⟩ }] }

/-- One button whose `aria-label` contains a double quote. -/
def docAria : Doc :=
  { elems := [{ tag := "body" },
              { tag := "button", parent := some 0, ariaLabel := some "Play \"Now\"",
                rect := ⟨10, 10, 100, 30⟩ }] }

/-- One button whose `data-testid` contains a double quote. -/
def docTestid : Doc :=
  { elems := [{ tag := "body" },
              { tag := "button", parent := some 0, dataTestid := some "a\"b",
                rect := ⟨10, 10, 100, 30⟩ }] }

/-- Two buttons indistinguishable to `generateElementId` (same tag, no
attributes, no text). -/
def docTwin : Doc :=
  { elems := [{ tag := "body" },
              { tag := "button", parent := some 0, rect := ⟨0, 0, 10, 10⟩ },
              { tag := "button", parent := some 0, rect := ⟨0, 20, 10, 10⟩ }] }

/-- The spec's nesting scenario: an anchor inside a button. -/
def docNested : Doc :=
  { elems := [{ tag := "body" },
              { tag := "button", parent := some 0, rect := ⟨10, 10, 100, 30⟩ },
              { tag := "a", parent := some 1, hrefAttr := some "/home", ownText := "Home",
                rect := ⟨12, 12, 40, 20⟩ }] }

/-- A single visible button. -/
def docOne : Doc :=
  { elems := [{ tag := "body" },
              { tag := "button", parent := some 0, rect := ⟨0, 0, 10, 10⟩ }] }

/-- The spec's cap scenario: 150 visible buttons. -/
def doc150 : Doc :=
  { elems := { tag := "body" } :: (List.range 150).map fun _ =>
      ({ tag := "button", parent := some 0, rect := ⟨0, 0, 10, 10⟩ } : Element) }

/-- A document with no interactive elements at all. -/
def docDiv : Doc :=
  { elems := [{ tag := "body" }, { tag := "div", parent := some 0, rect := ⟨0, 0, 10, 10⟩ }] }

/-- A button far beyond the right edge of the 1024×768 viewport but
vertically in range. -/
def docOff : Doc :=
  { elems := [{ tag := "body" },
              { tag := "button", parent := some 0, rect := ⟨5000, 10, 10, 10⟩ }] }

/-- An outer button containing an attribute- and text-less inner button
(the two share one hash id) plus a sibling link: priorities 13, 12 and 11,
with the priority-11 inner button colliding on the priority-13 outer
button's id. -/
def docTriple : Doc :=
  { elems := [{ tag := "body" },
              { tag := "button", parent := some 0, rect := ⟨0, 0, 50, 20⟩ },
              { tag := "button", parent := some 1, rect := ⟨2, 2, 10, 10⟩ },
              { tag := "a", parent := some 0, hrefAttr := some "/x",
                rect := ⟨0, 30, 50, 20⟩ }] }

/-- Two concrete emotion readings for exercising the smoothing. -/
def readingA : MorphCast.Emotions := { happy := 80, neutral := 20 }

def readingB : MorphCast.Emotions := { happy := 40, sad := 10 }

end Docs

/-! # Supporting lemmas -/

namespace Efficient

theorem mem_insertByPriority {x z : EffScannedElement} {l : List EffScannedElement}
    (h : z ∈ insertByPriority x l) : z = x ∨ z ∈ l := by
  induction l with
  | nil => simpa [insertByPriority] using h
  | cons y ys ih =>
    by_cases hc : y.priority ≤ x.priority
    · simpa [insertByPriority, hc, or_assoc] using h
    · simp only [insertByPriority, if_neg hc, List.mem_cons] at h
      rcases h with h | h
      · exact Or.inr (by simp [h])
      · rcases ih h with h' | h'
        · exact Or.inl h'
        · exact Or.inr (by simp [h'])

theorem pairwise_insertByPriority (x : EffScannedElement) {l : List EffScannedElement}
    (h : l.Pairwise fun a b => b.priority ≤ a.priority) :
    (insertByPriority x l).Pairwise fun a b => b.priority ≤ a.priority := by
  induction l with
  | nil => simp [insertByPriority]
  | cons y ys ih =>
    rcases List.pairwise_cons.1 h with ⟨hy, hys⟩
    by_cases hc : y.priority ≤ x.priority
    · rw [insertByPriority, if_pos hc]
      refine List.pairwise_cons.2 ⟨?_, h⟩
      intro b hb
      rcases List.mem_cons.1 hb with rfl | hb'
      · exact hc
      · exact le_trans (hy b hb') hc
    · rw [insertByPriority, if_neg hc]
      refine List.pairwise_cons.2 ⟨?_, ih hys⟩
      intro b hb
      rcases mem_insertByPriority hb with rfl | hb'
      · exact le_of_lt (lt_of_not_ge hc)
      · exact hy b hb'

theorem sorted_prioritizeElements (l : List EffScannedElement) :
    (prioritizeElements l).Pairwise fun a b => b.priority ≤ a.priority := by
  induction l with
  | nil => simp [prioritizeElements]
  | cons x xs ih => exact pairwise_insertByPriority x ih

theorem filter_insertByPriority (x : EffScannedElement) (l : List EffScannedElement) (p : Int) :
    (insertByPriority x l).filter (fun r => r.priority == p) =
      if x.priority = p then x :: l.filter (fun r => r.priority == p)
      else l.filter (fun r => r.priority == p) := by
  induction l with
  | nil =>
    by_cases hx : x.priority = p <;> simp [insertByPriority, hx]
  | cons y ys ih =>
    by_cases hc : y.priority ≤ x.priority
    · rw [insertByPriority, if_pos hc]
      by_cases hx : x.priority = p <;> simp [List.filter_cons, hx]
    · rw [insertByPriority, if_neg hc]
      by_cases hy : y.priority = p
      · have hx : ¬ x.priority = p := by
          intro hxp
          exact hc (by omega)
        simp [List.filter_cons, hy, ih, hx]
      · simp [List.filter_cons, hy, ih]

theorem filter_prioritizeElements (l : List EffScannedElement) (p : Int) :
    (prioritizeElements l).filter (fun r => r.priority == p) =
      l.filter (fun r => r.priority == p) := by
  induction l with
  | nil => rfl
  | cons x xs ih =>
    show (insertByPriority x (prioritizeElements xs)).filter _ = _
    rw [filter_insertByPriority]
    by_cases hx : x.priority = p <;> simp [List.filter_cons, hx, ih]

end Efficient

namespace Spotify

theorem jsLookup_mem_values {tbl : List (String × String)} {e v : String}
    (h : jsLookup tbl e = some v) : v ∈ tbl.map Prod.snd := by
  induction tbl with
  | nil => simp [jsLookup] at h
  | cons kv rest ih =>
    obtain ⟨k, w⟩ := kv
    by_cases hk : k = e
    · rw [jsLookup, if_pos hk] at h
      simp at h
      simp [h]
    · rw [jsLookup, if_neg hk] at h
      simpa using Or.inr (ih h)

end Spotify

namespace MorphCast

theorem history_length_bound (inputs : List Emotions) (st : ServiceState)
    (h : st.emotionHistory.length ≤ historySize) :
    (inputs.foldl detectEmotionsStep st).emotionHistory.length ≤ historySize := by
  induction inputs generalizing st with
  | nil => exact h
  | cons e rest ih =>
    rw [List.foldl_cons]
    apply ih
    have hlen : (st.emotionHistory ++ [e]).length = st.emotionHistory.length + 1 := by simp
    unfold detectEmotionsStep
    dsimp only
    split
    · rw [List.length_tail, hlen]
      omega
    · rename_i hgt
      omega

theorem foldl_addEmotions (hist : List Emotions) (acc : SmoothedEmotions) :
    hist.foldl addEmotions acc =
      ⟨acc.happy + (hist.map (·.happy)).sum, acc.sad + (hist.map (·.sad)).sum,
       acc.angry + (hist.map (·.angry)).sum, acc.surprised + (hist.map (·.surprised)).sum,
       acc.neutral + (hist.map (·.neutral)).sum⟩ := by
  induction hist generalizing acc with
  | nil => simp
  | cons e rest ih =>
    rw [List.foldl_cons, ih]
    simp only [addEmotions, List.map_cons, List.sum_cons, SmoothedEmotions.mk.injEq]
    refine ⟨?_, ?_, ?_, ?_, ?_⟩ <;> ring

theorem getSmoothed_empty (s : ServiceState) (h : s.emotionHistory = []) :
    getSmoothedEmotions s = projectCurrent s.currentEmotions := by
  unfold getSmoothedEmotions
  rw [if_pos (by simp [h])]

theorem getSmoothed_eq_mean (s : ServiceState) (h : s.emotionHistory ≠ []) :
    getSmoothedEmotions s = meanOfHistory s.emotionHistory := by
  unfold getSmoothedEmotions meanOfHistory
  rw [if_neg (by simp [h])]
  rw [foldl_addEmotions]
  simp

end MorphCast

namespace Simple

open CSSModel

theorem reduceOption_map_skip {α β : Type} (l : List α) (f : α → Option β) (q : α → Bool)
    (h : ∀ a, q a = false → f a = none) :
    (l.map f).reduceOption = ((l.filter q).map f).reduceOption := by
  induction l with
  | nil => rfl
  | cons a rest ih =>
    cases hq : q a
    · rw [List.filter_cons_of_neg (by simp [hq]), List.map_cons, h a hq,
        List.reduceOption_cons_of_none, ih]
    · rw [List.filter_cons_of_pos (by simp [hq]), List.map_cons, List.map_cons]
      cases hf : f a with
      | none => rw [List.reduceOption_cons_of_none, List.reduceOption_cons_of_none, ih]
      | some b => rw [List.reduceOption_cons_of_some, List.reduceOption_cons_of_some, ih]

theorem extractElementData_throws (doc : Doc) (i index : Nat)
    (h : (elemAt doc i).throws = true) : extractElementData doc i index = none := by
  unfold extractElementData
  rw [if_pos h]

theorem addCapped_length_le (maxE : Nat) (l : List Nat) (acc : List Nat)
    (h : acc.length ≤ maxE) : (l.foldl (addCapped maxE) acc).length ≤ maxE := by
  induction l generalizing acc with
  | nil => exact h
  | cons i rest ih =>
    rw [List.foldl_cons]
    apply ih
    unfold addCapped
    split
    · exact h
    · rename_i hcond
      simp only [Bool.or_eq_true, decide_eq_true_eq, not_or] at hcond
      simp only [List.length_append, List.length_cons, List.length_nil]
      omega

theorem collectElements_length_le (doc : Doc) (maxE : Nat) :
    (collectElements doc maxE).length ≤ maxE := by
  unfold collectElements
  have aux : ∀ (strats : List String) (acc : List Nat), acc.length ≤ maxE →
      (strats.foldl
        (fun acc s =>
          match queryAllString doc s with
          | none => acc
          | some found => found.foldl (addCapped maxE) acc)
        acc).length ≤ maxE := by
    intro strats
    induction strats with
    | nil => intro acc h; exact h
    | cons s rest ih =>
      intro acc h
      rw [List.foldl_cons]
      apply ih
      cases queryAllString doc s with
      | none => exact h
      | some found => exact addCapped_length_le maxE found acc h
  exact aux strategySelectors [] (by simp)

theorem computeScanResults_length_le (doc : Doc) (maxE : Nat) :
    (computeScanResults doc maxE).length ≤ maxE := by
  unfold computeScanResults
  calc ((((collectElements doc maxE).enum.map fun p =>
            extractElementData doc p.2 p.1).reduceOption).filter fun d => d.visible).length
      ≤ (((collectElements doc maxE).enum.map fun p =>
            extractElementData doc p.2 p.1).reduceOption).length := List.length_filter_le _ _
    _ ≤ ((collectElements doc maxE).enum.map fun p =>
            extractElementData doc p.2 p.1).length := List.reduceOption_length_le _
    _ = (collectElements doc maxE).enum.length := List.length_map _ _
    _ = (collectElements doc maxE).length := List.enum_length
    _ ≤ maxE := collectElements_length_le doc maxE

end Simple

namespace Efficient

theorem foldl_mapSet_append (l : List EffScannedElement)
    (m : List (String × EffScannedElement))
    (hdis : ∀ d ∈ l, ∀ p ∈ m, p.1 ≠ d.id) (hnd : (l.map (·.id)).Nodup) :
    l.foldl (fun m d => mapSet m d.id d) m = m ++ l.map fun d => (d.id, d) := by
  induction l generalizing m with
  | nil => simp
  | cons d rest ih =>
    have hset : mapSet m d.id d = m ++ [(d.id, d)] := by
      unfold mapSet
      rw [if_neg]
      simp only [List.any_eq_true, not_exists, not_and, decide_eq_true_eq]
      intro p hp
      exact hdis d (List.mem_cons_self d rest) p hp
    rw [List.foldl_cons, hset, ih]
    · simp
    · intro d' hd' p hp
      rcases List.mem_append.1 hp with hp | hp
      · exact hdis d' (List.mem_cons_of_mem d hd') p hp
      · have hpd : p = (d.id, d) := by simpa using hp
        subst hpd
        simp only [List.map_cons, List.nodup_cons] at hnd
        simp only [ne_eq]
        intro hcontra
        exact hnd.1 (hcontra ▸ List.mem_map_of_mem (fun d => d.id) hd')
    · simp only [List.map_cons, List.nodup_cons] at hnd
      exact hnd.2

theorem updateCache_values (st : EffState) (l : List EffScannedElement) (now : Nat)
    (hnd : (l.map (·.id)).Nodup) :
    (updateCache st l now).cache.map (·.2) = l := by
  unfold updateCache
  rw [foldl_mapSet_append l [] (by simp) hnd]
  simp only [List.nil_append, List.map_map]
  have hid : ((fun x : String × EffScannedElement => x.2) ∘
      fun d : EffScannedElement => (d.id, d)) = id := rfl
  rw [hid, List.map_id]

theorem updateCache_length_pos (st : EffState) (l : List EffScannedElement) (now : Nat)
    (hnd : (l.map (·.id)).Nodup) (hne : l ≠ []) :
    0 < (updateCache st l now).cache.length := by
  have h := updateCache_values st l now hnd
  have : (updateCache st l now).cache.length = l.length := by
    rw [← List.length_map (updateCache st l now).cache (·.2), h]
  rw [this]
  exact List.length_pos.2 hne

end Efficient


namespace Efficient

theorem length_insertByPriority (x : EffScannedElement) (l : List EffScannedElement) :
    (insertByPriority x l).length = l.length + 1 := by
  induction l with
  | nil => rfl
  | cons y ys ih =>
    by_cases hc : y.priority ≤ x.priority
    · rw [insertByPriority, if_pos hc]
      rfl
    · rw [insertByPriority, if_neg hc, List.length_cons, ih]
      rfl

theorem length_prioritizeElements (l : List EffScannedElement) :
    (prioritizeElements l).length = l.length := by
  induction l with
  | nil => rfl
  | cons x xs ih =>
    show (insertByPriority x (prioritizeElements xs)).length = _
    rw [length_insertByPriority, ih]
    rfl

theorem processedUnsorted_length_le (doc : CSSModel.Doc) (inc : Bool) (els : List Nat) :
    (processedUnsorted doc inc els).length ≤ els.length := by
  unfold processedUnsorted
  have aux : ∀ (l : List Nat) (acc : List EffScannedElement),
      (l.foldl
        (fun acc i =>
          let isVisible := (CSSModel.elemAt doc i).isIntersecting
          if ! inc && ! isVisible then acc
          else
            match extractElementData doc i isVisible with
            | some d => acc ++ [d]
            | none => acc)
        acc).length ≤ acc.length + l.length := by
    intro l
    induction l with
    | nil => intro acc; simp
    | cons i rest ih =>
      intro acc
      rw [List.foldl_cons]
      refine le_trans (ih _) ?_
      have hstep :
          ((fun acc i =>
            let isVisible := (CSSModel.elemAt doc i).isIntersecting
            if ! inc && ! isVisible then acc
            else
              match extractElementData doc i isVisible with
              | some d => acc ++ [d]
              | none => acc) acc i).length ≤ acc.length + 1 := by
        dsimp only
        split
        · omega
        · split
          · simp
          · omega
      dsimp only at hstep ⊢
      rw [List.length_cons]
      omega
  simpa using aux els []

theorem processElements_length_le (doc : CSSModel.Doc) (inc : Bool) (els : List Nat) :
    (processElements doc inc els).length ≤ els.length := by
  unfold processElements
  rw [length_prioritizeElements]
  exact processedUnsorted_length_le doc inc els

end Efficient

/-! # Claim theorems -/

set_option maxRecDepth 400000

/-- On a cold cache the efficient scan's result is the processed form of
the strategy-chosen element list. -/
theorem Efficient.scan_cold_fst (st : Efficient.EffState) (doc : CSSModel.Doc)
    (opts : Efficient.EffOptions) (now : Nat) (hc : st.cache = []) :
    (Efficient.scanPageElements st doc opts now).1 =
      Efficient.processElements doc (opts.includeInvisible = some true)
        (Efficient.chosenElements doc opts) := by
  unfold Efficient.scanPageElements Efficient.chosenElements
  rw [if_neg (by simp [Efficient.effIsCacheValid, hc])]

/-- Claim C5, counterexample: a scan served from the cache is a scan too,
and it need not be sorted.  On a button nested inside an identical
(hash-id-colliding) button plus a sibling link, the first scan returns
priorities [13, 12, 11], but the id-keyed cache collapses the two
buttons — last record wins, keeping the first record's position — so the
cache-hit rescan within the lifetime returns priorities [11, 12], not
descending. -/
theorem C5_counterexample_cache_hit_unsorted :
    (Efficient.scanPageElements Efficient.effInitState Docs.docTriple {} 0).1.map
        (·.priority) = [13, 12, 11] ∧
    (Efficient.scanPageElements
        (Efficient.scanPageElements Efficient.effInitState Docs.docTriple {} 0).2
        Docs.docTriple {} 1000).1.map (·.priority) = [11, 12] :=
  ⟨by decide, by decide⟩

/-- Claim C5 as amended: every cache-miss scan returns a sequence sorted
in descending order of priority score, and any two elements with equal
computed priority appear in their original discovery order (the filter at
each priority value is unchanged by the sort, which is exactly
stability); a cache-hit scan instead returns the stored id-deduplicated
cache values, which colliding ids can leave out of order. -/
theorem C5_cold_scan_sorted_and_stable :
    ∀ (st : Efficient.EffState) (doc : CSSModel.Doc) (opts : Efficient.EffOptions)
      (now : Nat), st.cache = [] →
      ((Efficient.scanPageElements st doc opts now).1.Pairwise
        fun a b => b.priority ≤ a.priority) ∧
      ∀ p : Int,
        ((Efficient.scanPageElements st doc opts now).1.filter
            fun r => r.priority == p) =
          ((Efficient.processedUnsorted doc (opts.includeInvisible = some true)
              (Efficient.chosenElements doc opts)).filter
            fun r => r.priority == p) := by
  intro st doc opts now hc
  rw [Efficient.scan_cold_fst st doc opts now hc]
  exact ⟨Efficient.sorted_prioritizeElements _,
    fun p => Efficient.filter_prioritizeElements _ p⟩

/-- Witness for C5: the cold scan of the nested-anchor document is sorted
(priorities [13, 10]) and its priority-10 sublist is the discovery-order
one. -/
theorem C5_cold_scan_sorted_and_stable_witness :
    ((Efficient.scanPageElements Efficient.effInitState Docs.docNested {} 0).1.Pairwise
      fun a b => b.priority ≤ a.priority) ∧
    ((Efficient.scanPageElements Efficient.effInitState Docs.docNested {} 0).1.filter
        fun r => r.priority == 10) =
      ((Efficient.processedUnsorted Docs.docNested
          (({} : Efficient.EffOptions).includeInvisible = some true)
          (Efficient.chosenElements Docs.docNested {})).filter
        fun r => r.priority == 10) :=
  ⟨(C5_cold_scan_sorted_and_stable Efficient.effInitState Docs.docNested {} 0 rfl).1,
   (C5_cold_scan_sorted_and_stable Efficient.effInitState Docs.docNested {} 0 rfl).2 10⟩

/-- Claim C10: for every emotion string and music mode in
{match, boost, energy}, `getPlaylistForEmotion` returns a defined,
non-empty playlist id; unknown emotions fall back to the neutral match
playlist (Peaceful Piano) in match/boost mode and to the medium energy
playlist (Feel Good) in energy mode. -/
theorem C10_playlist_total_and_fallbacks :
    (∀ (e : String) (m : Spotify.MusicMode),
      ∃ p, Spotify.getPlaylistForEmotion e m = some p ∧ p ≠ "") ∧
    (∀ e : String, Spotify.jsLookup Spotify.matchPlaylists e = none →
      Spotify.getPlaylistForEmotion e Spotify.MusicMode.matchMode =
        some "37i9dQZF1DX4sWSpwq3LiO") ∧
    (∀ e : String, Spotify.jsLookup Spotify.boostPlaylists e = none →
      Spotify.getPlaylistForEmotion e Spotify.MusicMode.boost =
        some "37i9dQZF1DX4sWSpwq3LiO") ∧
    (∀ e : String, Spotify.jsLookup Spotify.energyMap e = none →
      Spotify.getPlaylistForEmotion e Spotify.MusicMode.energy =
        some "37i9dQZF1DX2sUQwD7tbmL") := by
  refine ⟨?_, ?_, ?_, ?_⟩
  · intro e m
    have hmatch : ∀ v ∈ Spotify.matchPlaylists.map Prod.snd, v ≠ "" := by decide
    have hboost : ∀ v ∈ Spotify.boostPlaylists.map Prod.snd, v ≠ "" := by decide
    have henergy : ∀ v ∈ Spotify.energyMap.map Prod.snd,
        v = "high" ∨ v = "medium" ∨ v = "low" := by decide
    cases m with
    | matchMode =>
      cases h : Spotify.jsLookup Spotify.matchPlaylists e with
      | none =>
        exact ⟨"37i9dQZF1DX4sWSpwq3LiO",
          by simp [Spotify.getPlaylistForEmotion, Spotify.jsOrOpt, h]; rfl, by decide⟩
      | some v =>
        have hv := hmatch v (Spotify.jsLookup_mem_values h)
        exact ⟨v, by simp [Spotify.getPlaylistForEmotion, Spotify.jsOrOpt, h, hv], hv⟩
    | boost =>
      cases h : Spotify.jsLookup Spotify.boostPlaylists e with
      | none =>
        exact ⟨"37i9dQZF1DX4sWSpwq3LiO",
          by simp [Spotify.getPlaylistForEmotion, Spotify.jsOrOpt, h]; rfl, by decide⟩
      | some v =>
        have hv := hboost v (Spotify.jsLookup_mem_values h)
        exact ⟨v, by simp [Spotify.getPlaylistForEmotion, Spotify.jsOrOpt, h, hv], hv⟩
    | energy =>
      cases h : Spotify.jsLookup Spotify.energyMap e with
      | none =>
        exact ⟨"37i9dQZF1DX2sUQwD7tbmL",
          by simp [Spotify.getPlaylistForEmotion, CSSModel.jsOrStr, h]; rfl, by decide⟩
      | some lvl =>
        rcases henergy lvl (Spotify.jsLookup_mem_values h) with hl | hl | hl <;>
          subst hl <;>
          refine ⟨_, by simp [Spotify.getPlaylistForEmotion, CSSModel.jsOrStr, h]; rfl, by decide⟩
  · intro e h
    simp [Spotify.getPlaylistForEmotion, Spotify.jsOrOpt, h]
    rfl
  · intro e h
    simp [Spotify.getPlaylistForEmotion, Spotify.jsOrOpt, h]
    rfl
  · intro e h
    simp [Spotify.getPlaylistForEmotion, CSSModel.jsOrStr, h]
    rfl

/-- Witness for C10 at the unknown emotion "bored": all three fallbacks
fire. -/
theorem C10_playlist_total_and_fallbacks_witness :
    Spotify.getPlaylistForEmotion "bored" Spotify.MusicMode.matchMode =
      some "37i9dQZF1DX4sWSpwq3LiO" ∧
    Spotify.getPlaylistForEmotion "bored" Spotify.MusicMode.boost =
      some "37i9dQZF1DX4sWSpwq3LiO" ∧
    Spotify.getPlaylistForEmotion "bored" Spotify.MusicMode.energy =
      some "37i9dQZF1DX2sUQwD7tbmL" :=
  ⟨C10_playlist_total_and_fallbacks.2.1 "bored" (by decide),
   C10_playlist_total_and_fallbacks.2.2.1 "bored" (by decide),
   C10_playlist_total_and_fallbacks.2.2.2 "bored" (by decide)⟩

/-- Claim C9: starting from a fresh service, the emotion history never
holds more than 10 readings after any sequence of detection steps, and
the smoothed emotions are the componentwise arithmetic mean of exactly
the readings currently in the history (the current raw emotions when the
history is empty). -/
theorem C9_history_bounded_and_smoothing_is_mean :
    (∀ inputs : List MorphCast.Emotions,
      ((inputs.foldl MorphCast.detectEmotionsStep MorphCast.initState).emotionHistory).length
        ≤ 10) ∧
    (∀ s : MorphCast.ServiceState, s.emotionHistory = [] →
      MorphCast.getSmoothedEmotions s = MorphCast.projectCurrent s.currentEmotions) ∧
    (∀ s : MorphCast.ServiceState, s.emotionHistory ≠ [] →
      MorphCast.getSmoothedEmotions s = MorphCast.meanOfHistory s.emotionHistory) :=
  ⟨fun inputs =>
    MorphCast.history_length_bound inputs MorphCast.initState (by simp [MorphCast.initState]),
   MorphCast.getSmoothed_empty, MorphCast.getSmoothed_eq_mean⟩

/-- Witness for C9: two detection steps leave two readings in the
history, and the smoothed result is their mean. -/
theorem C9_history_bounded_and_smoothing_is_mean_witness :
    (([Docs.readingA, Docs.readingB].foldl MorphCast.detectEmotionsStep
        MorphCast.initState).emotionHistory).length ≤ 10 ∧
    MorphCast.getSmoothedEmotions
        ([Docs.readingA, Docs.readingB].foldl MorphCast.detectEmotionsStep
          MorphCast.initState) =
      MorphCast.meanOfHistory
        ([Docs.readingA, Docs.readingB].foldl MorphCast.detectEmotionsStep
          MorphCast.initState).emotionHistory :=
  ⟨C9_history_bounded_and_smoothing_is_mean.1 [Docs.readingA, Docs.readingB],
   C9_history_bounded_and_smoothing_is_mean.2.2 _ (by
    simp [MorphCast.detectEmotionsStep, MorphCast.initState, MorphCast.historySize])⟩

/-- Claim C8, counterexample: a 10×10 button at x = 5000 — far beyond the
right edge of the 1024×768 viewport, so its box does not intersect the
viewport (with tolerance 0 or even 500) — is still classified visible by
the scan, because the code only tests vertical overlap. -/
theorem C8_counterexample_horizontal_ignored :
    (Simple.scan Simple.initState Docs.docOff {} 0).1.map (·.visible) = [true] ∧
    SpecVisibility.specVisible ⟨5000, 10, 10, 10⟩ 1024 768 0 = false ∧
    SpecVisibility.specVisible ⟨5000, 10, 10, 10⟩ 1024 768 500 = false := by
  refine ⟨by decide, by decide, by decide⟩

/-- Claim C8 as amended: the scanners classify an element visible exactly
when its box has positive width and height and its vertical extent
overlaps the viewport's vertical extent — the horizontal position is
ignored; the robust variant extends the vertical range by a 500px
tolerance. -/
theorem C8_visibility_is_vertical_overlap (rect : CSSModel.Rect) (innerHeight : Int)
    (h : 0 < innerHeight) :
    (Simple.isVisibleCheck rect innerHeight = true ↔
      0 < rect.width ∧ 0 < rect.height ∧
        SpecVisibility.intervalsIntersect rect.top rect.bottom 0 innerHeight) ∧
    (Robust.robustIsVisible rect innerHeight = true ↔
      0 < rect.width ∧ 0 < rect.height ∧
        SpecVisibility.intervalsIntersect rect.top rect.bottom (-500)
          (innerHeight + 500)) := by
  unfold Simple.isVisibleCheck Robust.robustIsVisible SpecVisibility.intervalsIntersect
  simp only [Bool.and_eq_true, decide_eq_true_eq, CSSModel.Rect.bottom]
  constructor
  · constructor
    · rintro ⟨⟨⟨hw, hh⟩, ht⟩, hb⟩
      refine ⟨hw, hh, ?_⟩
      omega
    · rintro ⟨hw, hh, hiv⟩
      refine ⟨⟨⟨hw, hh⟩, ?_⟩, ?_⟩ <;> omega
  · constructor
    · rintro ⟨⟨⟨hw, hh⟩, ht⟩, hb⟩
      refine ⟨hw, hh, ?_⟩
      omega
    · rintro ⟨hw, hh, hiv⟩
      refine ⟨⟨⟨hw, hh⟩, ?_⟩, ?_⟩ <;> omega

/-- Witness for C8: a 10×10 box at the origin of a 768px-high viewport is
visible under both checks and both interval characterisations. -/
theorem C8_visibility_is_vertical_overlap_witness :
    (Simple.isVisibleCheck ⟨0, 0, 10, 10⟩ 768 = true ↔
      0 < (10 : Int) ∧ 0 < (10 : Int) ∧
        SpecVisibility.intervalsIntersect 0 10 0 768) ∧
    (Robust.robustIsVisible ⟨0, 0, 10, 10⟩ 768 = true ↔
      0 < (10 : Int) ∧ 0 < (10 : Int) ∧
        SpecVisibility.intervalsIntersect 0 10 (-500) (768 + 500)) :=
  C8_visibility_is_vertical_overlap ⟨0, 0, 10, 10⟩ 768 (by decide)


/-- Claim C7: an exception while deriving data for a single element drops
that element alone — the scan result equals the result of processing the
collected list with the throwing entries removed (each survivor keeping
its position-derived index) — and a document yielding zero candidate
elements produces an empty sequence rather than an error. -/
theorem C7_bad_elements_dropped_scan_continues :
    (∀ (doc : CSSModel.Doc) (maxE : Nat),
      Simple.computeScanResults doc maxE =
        (((((Simple.collectElements doc maxE).enum.filter fun p =>
              ! (CSSModel.elemAt doc p.2).throws).map fun p =>
                Simple.extractElementData doc p.2 p.1).reduceOption).filter
          fun d => d.visible)) ∧
    (∀ (doc : CSSModel.Doc) (opts : Simple.ScanOptions) (now : Nat),
      Simple.collectElements doc (if opts.maxElements = 0 then 100 else opts.maxElements) = [] →
      (Simple.scan Simple.initState doc opts now).1 = []) := by
  constructor
  · intro doc maxE
    unfold Simple.computeScanResults
    rw [Simple.reduceOption_map_skip ((Simple.collectElements doc maxE).enum)
      (fun p => Simple.extractElementData doc p.2 p.1)
      (fun p => ! (CSSModel.elemAt doc p.2).throws)
      (fun p hp => Simple.extractElementData_throws doc p.2 p.1 (by simpa using hp))]
  · intro doc opts now hempty
    simp only [Simple.scan, Simple.isCacheValid, Simple.initState, Option.isSome_none,
      Bool.false_and, and_false, ne_eq, if_false]
    unfold Simple.computeScanResults
    rw [hempty]
    rw [if_neg (by simp)]
    rfl

/-- Witness for C7: a document whose only non-body element is a `div`
matches no collection strategy and scans to the empty sequence. -/
theorem C7_bad_elements_dropped_scan_continues_witness :
    (Simple.scan Simple.initState Docs.docDiv {} 0).1 = [] :=
  C7_bad_elements_dropped_scan_continues.2 Docs.docDiv {} 0 (by decide)

/-- Claim C4, counterexample: requesting `maxElements = 0` does not yield
an empty sequence — `options.maxElements || 100` treats `0` as absent, so
a one-button document still returns one element. -/
theorem C4_counterexample_maxElements_zero :
    (Simple.scan Simple.initState Docs.docOne { maxElements := 0 } 0).1.length = 1 := by
  decide

/-- Claim C4 as amended: a cold-cache scan never returns more than the
effective cap — `maxElements` when positive, the default 100 when the
option is `0`/absent — and the 150-button document scanned with
`maxElements = 100` returns exactly 100 elements. -/
theorem C4_scan_respects_effective_cap :
    (∀ (doc : CSSModel.Doc) (opts : Simple.ScanOptions) (now : Nat),
      ((Simple.scan Simple.initState doc opts now).1).length ≤
        (if opts.maxElements = 0 then 100 else opts.maxElements)) ∧
    (∀ (doc : CSSModel.Doc) (opts : Efficient.EffOptions) (now : Nat),
      ((Efficient.scanPageElements Efficient.effInitState doc opts now).1).length ≤
        (if opts.maxElements = 0 then 100 else opts.maxElements)) ∧
    (Simple.scan Simple.initState Docs.doc150 { maxElements := 100 } 0).1.length = 100 := by
  refine ⟨?_, ?_, by decide⟩
  · intro doc opts now
    simp only [Simple.scan, Simple.isCacheValid, Simple.initState, Option.isSome_none,
      Bool.false_and, and_false, ne_eq, if_false]
    rw [if_neg (by simp)]
    exact Simple.computeScanResults_length_le doc _
  · intro doc opts now
    unfold Efficient.scanPageElements
    rw [if_neg (by simp [Efficient.effIsCacheValid, Efficient.effInitState])]
    dsimp only
    refine le_trans (Efficient.processElements_length_le doc _ _) ?_
    split
    · unfold Efficient.fastScan
      exact List.length_take_le _ _
    · split
      · unfold Efficient.accurateScan
        exact List.length_take_le _ _
      · unfold Efficient.balancedScan
        exact List.length_take_le _ _

/-- On a cold cache the efficient scan's new state is `updateCache` of its
own result. -/
theorem Efficient.scan_cold_snd (st : Efficient.EffState) (doc : CSSModel.Doc)
    (opts : Efficient.EffOptions) (now : Nat) (hc : st.cache = []) :
    (Efficient.scanPageElements st doc opts now).2 =
      Efficient.updateCache st (Efficient.scanPageElements st doc opts now).1 now := by
  unfold Efficient.scanPageElements
  rw [if_neg (by simp [Efficient.effIsCacheValid, hc])]

/-- Claim C3, counterexample: on a document with two indistinguishable
buttons the efficient scanner's two records share one hash id, so the
cache (a map keyed by id) collapses them — the first scan returns two
elements, the cache-hit rescan within the lifetime only one, so the two
scans are not identical. -/
theorem C3_counterexample_duplicate_ids :
    (Efficient.scanPageElements Efficient.effInitState Docs.docTwin {} 0).1.length = 2 ∧
    (Efficient.scanPageElements
        (Efficient.scanPageElements Efficient.effInitState Docs.docTwin {} 0).2
        Docs.docTwin {} 1000).1.length = 1 := by
  exact ⟨by decide, by decide⟩

/-- Claim C3 as amended: with `useCache` not disabled and an unchanged
document, a second scan within the cache lifetime is a cache hit that
returns the stored result with the state unchanged; for the simple
scanner this always reproduces the first scan, for the efficient scanner
it does provided the first scan's element ids are pairwise distinct (and
some element was found — an empty result is never a valid cache). -/
theorem C3_cache_hit_idempotent :
    (∀ (st : Simple.ScannerState) (doc : CSSModel.Doc) (opts : Simple.ScanOptions)
        (now₁ now₂ : Nat), st.cache = none → opts.useCache ≠ some false →
        now₁ ≤ now₂ → now₂ - now₁ < 3000 →
        Simple.scan (Simple.scan st doc opts now₁).2 doc opts now₂ =
          Simple.scan st doc opts now₁) ∧
    (∀ (st : Efficient.EffState) (doc : CSSModel.Doc) (opts : Efficient.EffOptions)
        (now₁ now₂ : Nat), st.cache = [] → opts.useCache ≠ some false →
        now₁ ≤ now₂ → now₂ - now₁ < 5000 →
        ((Efficient.scanPageElements st doc opts now₁).1.map (·.id)).Nodup →
        (Efficient.scanPageElements st doc opts now₁).1 ≠ [] →
        Efficient.scanPageElements (Efficient.scanPageElements st doc opts now₁).2
            doc opts now₂ =
          Efficient.scanPageElements st doc opts now₁) := by
  constructor
  · intro st doc opts now₁ now₂ hc hu h12 hlt
    have hmiss : Simple.isCacheValid st now₁ = false := by
      simp [Simple.isCacheValid, hc]
    rcases hscan : Simple.scan st doc opts now₁ with ⟨R, st₂⟩
    have hst₂ : st₂ = ⟨some R, now₁⟩ := by
      unfold Simple.scan at hscan
      rw [if_neg (by simp [hmiss])] at hscan
      injection hscan with hA hB
      rw [← hB, hA]
    subst hst₂
    unfold Simple.scan
    rw [if_pos ⟨hu, by
      simp only [Simple.isCacheValid, Simple.CACHE_LIFETIME, Option.isSome_some,
        Bool.true_and, decide_eq_true_eq]
      omega⟩]
    rfl
  · intro st doc opts now₁ now₂ hc hu h12 hlt hnd hne
    rcases hscan : Efficient.scanPageElements st doc opts now₁ with ⟨P, st₂⟩
    have hst₂ : st₂ = Efficient.updateCache st P now₁ := by
      have h := Efficient.scan_cold_snd st doc opts now₁ hc
      rw [hscan] at h
      exact h
    rw [hscan] at hnd hne
    simp only at hnd hne
    subst hst₂
    have hval : Efficient.effIsCacheValid (Efficient.updateCache st P now₁) now₂ = true := by
      unfold Efficient.effIsCacheValid
      simp only [Bool.and_eq_true, decide_eq_true_eq]
      refine ⟨?_, Efficient.updateCache_length_pos st P now₁ hnd hne⟩
      show now₂ - (Efficient.updateCache st P now₁).lastScanTimestamp < 5000
      simp only [Efficient.updateCache]
      omega
    unfold Efficient.scanPageElements
    rw [if_pos ⟨hu, hval⟩]
    rw [Efficient.updateCache_values st P now₁ hnd]

/-- Witness for C3: on the one-button document a second scan at t = 1000
reproduces the first scan for both scanners. -/
theorem C3_cache_hit_idempotent_witness :
    Simple.scan (Simple.scan Simple.initState Docs.docOne {} 0).2 Docs.docOne {} 1000 =
      Simple.scan Simple.initState Docs.docOne {} 0 ∧
    Efficient.scanPageElements
        (Efficient.scanPageElements Efficient.effInitState Docs.docOne {} 0).2
        Docs.docOne {} 1000 =
      Efficient.scanPageElements Efficient.effInitState Docs.docOne {} 0 :=
  ⟨C3_cache_hit_idempotent.1 Simple.initState Docs.docOne {} 0 1000 rfl
      (by decide) (by omega) (by omega),
   C3_cache_hit_idempotent.2 Efficient.effInitState Docs.docOne {} 0 1000 rfl
      (by decide) (by omega) (by omega) (by decide) (by decide)⟩

/-- Claim C6, counterexample: on a document with an anchor nested inside a
button, the default (`balanced`, visible-only) scan of both scanners
returns BOTH elements — the nested inner anchor is not excluded. -/
theorem C6_counterexample_nested_anchor_retained :
    (Efficient.scanPageElements Efficient.effInitState Docs.docNested {} 0).1.map (·.type) =
      ["button", "a"] ∧
    (Simple.scan Simple.initState Docs.docNested {} 0).1.length = 2 := by
  exact ⟨by decide, by decide⟩

/-- Claim C6 as amended: a nested interactive element is retained but
penalised — on the anchor-inside-button document the efficient scan
returns both elements, flags the anchor as nested, and ranks it below the
outer button (priorities 13 vs 10, the nested penalty being −2). -/
theorem C6_nested_penalised_not_excluded :
    (Efficient.scanPageElements Efficient.effInitState Docs.docNested {} 0).1.map
        (fun r => (r.type, r.priority, r.metadata.isNested)) =
      [("button", 13, false), ("a", 10, true)] ∧
    Efficient.isNestedInteractive Docs.docNested 2 = true ∧
    Efficient.isNestedInteractive Docs.docNested 1 = false := by
  exact ⟨by decide, by decide, by decide⟩

/-- Claim C1: on a button whose `aria-label` contains a double quote, the
efficient scanner emits `button[aria-label="Play "Now""]` — a selector
string that is invalid and throws on first use (`parseSelector` returns
`none`) — while the simple scanner's escaped selector for the same
element parses and re-resolves to exactly the originating element. -/
theorem C1_efficient_selector_throws_on_use :
    Efficient.generateOptimalSelector Docs.docAria 1 =
      some "button[aria-label=\"Play \"Now\"\"]" ∧
    CSSModel.parseSelector "button[aria-label=\"Play \"Now\"\"]" = none ∧
    Simple.generateSelector Docs.docAria 1 = "button[aria-label=\"Play\\ \\\"Now\\\"\"]" ∧
    CSSModel.queryAllString Docs.docAria "button[aria-label=\"Play\\ \\\"Now\\\"\"]" =
      some [1] := by
  exact ⟨by decide, rfl, by decide, by decide⟩

/-- Claim C2, counterexample: a `data-testid` containing a double quote is
embedded without escaping by the efficient scanner — the emitted string
differs from the escaped form and throws on use. -/
theorem C2_counterexample_unescaped_testid :
    Efficient.generateOptimalSelector Docs.docTestid 1 = some "[data-testid=\"a\"b\"]" ∧
    ("[data-testid=\"a\"b\"]" : String) ≠
      "[data-testid=\"" ++ CSSModel.cssEscape "a\"b" ++ "\"]" ∧
    CSSModel.parseSelector "[data-testid=\"a\"b\"]" = none := by
  exact ⟨by decide, by decide, rfl⟩

/-- Claim C2 as amended: every selector the simple scanner generates
embeds id/attribute/class values only through `CSS.escape` (the efficient
scanner, per the counterexample, does not escape); and the spec's
scenario holds: scanning the document with the single `login:btn` button
returns exactly one element whose escaped selector re-resolves to that
button. -/
theorem C2_simple_selectors_escaped_and_login_scenario :
    (∀ (doc : CSSModel.Doc) (i : Nat),
      Simple.embedsOnlyEscaped doc i (Simple.generateSelector doc i)) ∧
    (Simple.scan Simple.initState Docs.docLogin {} 0).1.map (·.selector) =
      ["#login\\:btn"] ∧
    CSSModel.queryAllString Docs.docLogin "#login\\:btn" = some [1] := by
  refine ⟨?_, by decide, by decide⟩
  intro doc i
  unfold Simple.generateSelector Simple.embedsOnlyEscaped
  dsimp only
  split
  · exact Or.inl rfl
  · split
    · rename_i t ht
      exact Or.inr (Or.inl ⟨t, ht, rfl⟩)
    · split
      · rename_i a ha
        rcases Option.filter_eq_some.1 ha with ⟨ha', _⟩
        exact Or.inr (Or.inr (Or.inl ⟨a, Option.mem_def.1 ha', rfl⟩))
      · split
        · rename_i n hn
          exact Or.inr (Or.inr (Or.inr (Or.inl ⟨n, hn, rfl⟩)))
        · split
          · exact Or.inr (Or.inr (Or.inr (Or.inr (Or.inl ⟨_, rfl⟩))))
          · split
            · exact Or.inr (Or.inr (Or.inr (Or.inr (Or.inr (Or.inl
                ⟨CSSModel.sameTagPosition doc i, rfl⟩)))))
            · exact Or.inr (Or.inr (Or.inr (Or.inr (Or.inr (Or.inr rfl)))))
